import Mathlib

/-!
Verification of the DAQ_software repository core: the ADS124S08 register
protocol and conversion math (ADC.py), the sensor conversion formulas
(sensors.py), and the acquisition manager state machine (daq_manager.py,
data_logger.py).  Each definition is a shallow embedding of the Python
source; theorems check the natural-language specification against it.
-/

namespace DAQ

/-! ## Register protocol (ADC.py) -/

/-- ADC.py `wreg`: the byte frame put on the SPI bus,
`[0x40 | (addr & 0x1F), n - 1] + data`.  Bytes are modelled as integers
because Python computes `n - 1 = -1` for an empty data list. -/
def wreg_frame (addr : Nat) (data : List Nat) : List Int :=
  ((0x40 ||| (addr % 32) : Nat) : Int) :: ((data.length : Int) - 1) :: data.map (fun b => Int.ofNat b)

/-- Protocol / state-machine error vocabulary used by the specification.
The Python source raises plain `RuntimeError` / `TimeoutError` /
`AttributeError`; constructors record which concrete exception (if any)
each abstract name corresponds to. -/
inductive PyError where
  /-- spec `AlreadyLoggingError`: `RuntimeError("Logging is already in progress.")` -/
  | alreadyLogging
  /-- spec `NotMonitoringError`: `RuntimeError("Monitoring is not active. ...")` -/
  | notMonitoring
  /-- spec `NotInitializedError`: never raised by the source. -/
  | notInited
  /-- spec `ProtocolError`: never raised by the source. -/
  | protocolErr
  /-- Python `AttributeError`: `DataLogger` has no attribute `write_header`. -/
  | attrNoWriteHeader
deriving DecidableEq

/-- ADC.py `wreg` as a fallible operation: the source performs no
validation at all, so it always succeeds with the frame. -/
def wreg (addr : Nat) (data : List Nat) : Except PyError (List Int) :=
  Except.ok (wreg_frame addr data)

/-- ADC.py `read_raw_sample` decoding of the three response bytes:
`code = (b2 << 16) | (b1 << 8) | b0`, then `code -= 1 << 24` when bit 23
is set. -/
def read_raw_decode (b2 b1 b0 : Nat) : Int :=
  let code : Nat := ((b2 <<< 16) ||| (b1 <<< 8)) ||| b0
  if code &&& 0x800000 ≠ 0 then (code : Int) - (1 <<< 24 : Nat) else (code : Int)

/-- Big-endian 24-bit twos-complement encoder (the inverse that the spec
round-trip property quantifies over): the three bytes of `code mod 2^24`. -/
def encode24 (code : Int) : Nat × Nat × Nat :=
  let u : Nat := (code % (2 ^ 24 : Int)).toNat
  (u / 2 ^ 16, u / 2 ^ 8 % 2 ^ 8, u % 2 ^ 8)

/-- ADC.py `code_to_volts` over exact rationals:
`(code / (2^23 - 1)) * (vref / gain)`. -/
def code_to_volts (code : Int) (vref gain : ℚ) : ℚ :=
  ((code : ℚ) / (((1 <<< 23 : Nat) : ℚ) - 1)) * (vref / gain)

/-! ### Helper lemmas for the 24-bit round trip -/

/-- Shifted-or recombination: when `b` fits below the shift, `|||` is `+`. -/
lemma lor_shiftLeft_eq_add (a k b : Nat) (hb : b < 2 ^ k) :
    (a <<< k) ||| b = a * 2 ^ k + b := by
  apply Nat.eq_of_testBit_eq
  intro j
  rw [Nat.testBit_or, Nat.testBit_shiftLeft, Nat.mul_comm a (2 ^ k),
    Nat.testBit_mul_pow_two_add a hb j]
  by_cases h : j < k
  · have hk : ¬ (j ≥ k) := Nat.not_le.mpr h
    simp [h, hk]
  · have hbj : b.testBit j = false :=
      Nat.testBit_lt_two_pow (lt_of_lt_of_le hb (Nat.pow_le_pow_right (by norm_num) (Nat.le_of_not_lt h)))
    have hk : j ≥ k := Nat.le_of_not_lt h
    simp [h, hk, hbj]

/-- The sign-bit test `code &&& 0x800000 ≠ 0` is exactly `2^23 ≤ code`
for codes below `2^24`. -/
lemma and_sign_bit (u : Nat) (hu : u < 2 ^ 24) :
    (u &&& 0x800000 ≠ 0) ↔ 2 ^ 23 ≤ u := by
  have h8 : (0x800000 : Nat) = 2 ^ 23 := by norm_num
  rw [h8, Nat.and_two_pow]
  constructor
  · intro h
    by_cases hb : u.testBit 23
    · exact Nat.testBit_implies_ge hb
    · simp [hb] at h
  · intro h
    have hb : u.testBit 23 = true := by
      rw [Nat.testBit_to_div_mod]
      simp only [decide_eq_true_eq]
      omega
    simp [hb]

/-- Recombining the three bytes of `u < 2^24` gives back `u`. -/
lemma recombine_bytes (u : Nat) (_hu : u < 2 ^ 24) :
    (((u / 2 ^ 16) <<< 16) ||| ((u / 2 ^ 8 % 2 ^ 8) <<< 8)) ||| u % 2 ^ 8 = u := by
  have hmid : (u / 2 ^ 8 % 2 ^ 8) <<< 8 = (u / 2 ^ 8 % 2 ^ 8) * 2 ^ 8 := Nat.shiftLeft_eq _ _
  have hmod8 : u / 2 ^ 8 % 2 ^ 8 < 2 ^ 8 := Nat.mod_lt _ (by norm_num)
  have hlow : u % 2 ^ 8 < 2 ^ 8 := Nat.mod_lt _ (by norm_num)
  have hor1 : ((u / 2 ^ 8 % 2 ^ 8) <<< 8) ||| u % 2 ^ 8 = (u / 2 ^ 8 % 2 ^ 8) * 2 ^ 8 + u % 2 ^ 8 :=
    lor_shiftLeft_eq_add _ _ _ hlow
  have hsum : (u / 2 ^ 8 % 2 ^ 8) * 2 ^ 8 + u % 2 ^ 8 < 2 ^ 16 := by omega
  calc (((u / 2 ^ 16) <<< 16) ||| ((u / 2 ^ 8 % 2 ^ 8) <<< 8)) ||| u % 2 ^ 8
      = ((u / 2 ^ 16) <<< 16) ||| (((u / 2 ^ 8 % 2 ^ 8) <<< 8) ||| u % 2 ^ 8) := Nat.lor_assoc _ _ _
    _ = ((u / 2 ^ 16) <<< 16) ||| ((u / 2 ^ 8 % 2 ^ 8) * 2 ^ 8 + u % 2 ^ 8) := by rw [hor1]
    _ = u / 2 ^ 16 * 2 ^ 16 + ((u / 2 ^ 8 % 2 ^ 8) * 2 ^ 8 + u % 2 ^ 8) :=
          lor_shiftLeft_eq_add _ _ _ hsum
    _ = u := by omega

/-- Decoding the bytes produced by the encoder, expressed arithmetically. -/
lemma read_raw_decode_encode24 (c : Int) (hlo : -(2 ^ 23) ≤ c) (hhi : c < 2 ^ 23) :
    read_raw_decode (encode24 c).1 (encode24 c).2.1 (encode24 c).2.2 = c := by
  have hmod0 : 0 ≤ c % (2 ^ 24 : Int) := Int.emod_nonneg c (by norm_num)
  have hmodlt : c % (2 ^ 24 : Int) < 2 ^ 24 := Int.emod_lt_of_pos c (by norm_num)
  set u : Nat := (c % (2 ^ 24 : Int)).toNat with hu
  have huval : (u : Int) = c % (2 ^ 24 : Int) := Int.toNat_of_nonneg hmod0
  have hucase : (0 ≤ c ∧ (u : Int) = c) ∨ (c < 0 ∧ (u : Int) = c + 2 ^ 24) := by
    by_cases h0 : 0 ≤ c
    · left
      refine ⟨h0, ?_⟩
      rw [huval]
      omega
    · right
      refine ⟨by omega, ?_⟩
      rw [huval]
      omega
  have hult : u < 2 ^ 24 := by omega
  show read_raw_decode (u / 2 ^ 16) (u / 2 ^ 8 % 2 ^ 8) (u % 2 ^ 8) = c
  unfold read_raw_decode
  simp only [recombine_bytes u hult]
  have hs : ((1 <<< 24 : Nat) : Int) = 2 ^ 24 := by norm_num [Nat.shiftLeft_eq]
  rcases hucase with ⟨h0, hv⟩ | ⟨h0, hv⟩
  · have hnb : ¬ (u &&& 0x800000 ≠ 0) := by
      rw [and_sign_bit u hult]
      omega
    rw [if_neg hnb]
    omega
  · have hb : u &&& 0x800000 ≠ 0 := by
      rw [and_sign_bit u hult]
      omega
    rw [if_pos hb]
    omega

/-- Decoded values of arbitrary byte triples stay in the 24-bit signed range. -/
lemma read_raw_decode_range (b2 b1 b0 : Nat) (h2 : b2 < 2 ^ 8) (h1 : b1 < 2 ^ 8) (h0 : b0 < 2 ^ 8) :
    -(2 ^ 23) ≤ read_raw_decode b2 b1 b0 ∧ read_raw_decode b2 b1 b0 ≤ 2 ^ 23 - 1 := by
  have hu : ((b2 <<< 16) ||| (b1 <<< 8)) ||| b0 < 2 ^ 24 := by
    apply Nat.or_lt_two_pow _ (by omega)
    apply Nat.or_lt_two_pow
    · rw [Nat.shiftLeft_eq]; omega
    · rw [Nat.shiftLeft_eq]; omega
  unfold read_raw_decode
  have hs : ((1 <<< 24 : Nat) : Int) = 2 ^ 24 := by norm_num [Nat.shiftLeft_eq]
  set u : Nat := ((b2 <<< 16) ||| (b1 <<< 8)) ||| b0 with hud
  by_cases hbit : u &&& 0x800000 ≠ 0
  · rw [if_pos hbit]
    have := (and_sign_bit u hu).mp hbit
    constructor
    · omega
    · omega
  · rw [if_neg hbit]
    have hlt : ¬ 2 ^ 23 ≤ u := fun h => hbit ((and_sign_bit u hu).mpr h)
    constructor
    · omega
    · omega

/-! ### Claims C2, C3, C5 -/

/-- C2: for every integer code in `[-2^23, 2^23-1]`, encoding as three
big-endian bytes and decoding with the `read_raw_sample` rule returns the
original code, and the decoded value of any byte triple lies in
`[-2^23, 2^23-1]`. -/
theorem roundtrip_twos_complement :
    (∀ c : Int, -(2 ^ 23) ≤ c → c < 2 ^ 23 →
      read_raw_decode (encode24 c).1 (encode24 c).2.1 (encode24 c).2.2 = c) ∧
    (∀ b2 b1 b0 : Nat, b2 < 2 ^ 8 → b1 < 2 ^ 8 → b0 < 2 ^ 8 →
      -(2 ^ 23) ≤ read_raw_decode b2 b1 b0 ∧ read_raw_decode b2 b1 b0 ≤ 2 ^ 23 - 1) :=
  ⟨read_raw_decode_encode24, read_raw_decode_range⟩

/-- Closed witness for the round trip, applying the claim theorem at
code `-5` and at the byte triple `(0x80, 0x00, 0x01)`. -/
theorem roundtrip_twos_complement_witness :
    read_raw_decode (encode24 (-5)).1 (encode24 (-5)).2.1 (encode24 (-5)).2.2 = -5 ∧
    (-(2 ^ 23) ≤ read_raw_decode 128 0 1 ∧ read_raw_decode 128 0 1 ≤ 2 ^ 23 - 1) :=
  ⟨roundtrip_twos_complement.1 (-5) (by norm_num) (by norm_num),
   roundtrip_twos_complement.2 128 0 1 (by norm_num) (by norm_num) (by norm_num)⟩

/-- C3 counterexample: `code_to_volts (-2^23) vref 1` is NOT `-vref` at
`vref = 1`; the formula divides by `2^23 - 1`, so the most negative code
maps slightly past the negative full scale. -/
theorem code_to_volts_neg_full_scale_ne :
    code_to_volts (-(2 ^ 23)) 1 1 ≠ -1 ∧
    code_to_volts (-(2 ^ 23)) 1 1 = -(8388608 / 8388607 : ℚ) := by
  unfold code_to_volts
  norm_num [Nat.shiftLeft_eq]

/-- C3 amended: `code_to_volts (2^23-1) vref 1 = vref` exactly, but
`code_to_volts (-(2^23)) vref 1 = -(2^23/(2^23-1)) * vref`, which is
strictly below `-vref` for positive `vref` (no clamping of the code). -/
theorem code_to_volts_full_scale (vref : ℚ) (hv : 0 < vref) :
    code_to_volts (2 ^ 23 - 1) vref 1 = vref ∧
    code_to_volts (-(2 ^ 23)) vref 1 = -((2 ^ 23 : ℚ) / (2 ^ 23 - 1)) * vref ∧
    code_to_volts (-(2 ^ 23)) vref 1 < -vref := by
  have hfs : (((1 <<< 23 : Nat) : ℚ) - 1) = 8388607 := by norm_num [Nat.shiftLeft_eq]
  unfold code_to_volts
  rw [hfs]
  have hc1 : (((2 ^ 23 - 1 : Int) : ℚ)) = 8388607 := by norm_num
  have hc2 : (((-(2 ^ 23) : Int) : ℚ)) = -8388608 := by norm_num
  rw [hc1, hc2]
  refine ⟨by norm_num, by norm_num, ?_⟩
  have h : (-8388608 : ℚ) / 8388607 * (vref / 1) = -(vref + (1 / 8388607) * vref) := by ring
  have hpos : (0 : ℚ) < (1 / 8388607) * vref := by positivity
  rw [h]
  linarith

/-- Closed witness for the amended full-scale facts at `vref = 5/2`. -/
theorem code_to_volts_full_scale_witness :
    (0 : ℚ) < 5 / 2 ∧
    (code_to_volts (2 ^ 23 - 1) (5 / 2) 1 = 5 / 2 ∧
     code_to_volts (-(2 ^ 23)) (5 / 2) 1 = -((2 ^ 23 : ℚ) / (2 ^ 23 - 1)) * (5 / 2) ∧
     code_to_volts (-(2 ^ 23)) (5 / 2) 1 < -(5 / 2)) :=
  ⟨by norm_num, code_to_volts_full_scale (5 / 2) (by norm_num)⟩

/-- C5 counterexample: `wreg` never raises: with `addr = 32` (outside
0–31) it succeeds, aliasing the address to 0, and with an empty data list
it succeeds with length byte `-1`; the claimed `ProtocolError` does not
exist in the source. -/
theorem wreg_never_fails_cex :
    wreg 32 [0x11] = Except.ok [0x40, 0, 0x11] ∧
    wreg 5 [] = Except.ok [0x45, -1] := by
  have h64 : (0x40 ||| (32 % 32) : Nat) = 0x40 := by
    norm_num
  have h69 : (0x40 ||| (5 % 32) : Nat) = 0x45 := by
    have h2 : (0x40 : Nat) = 1 <<< 6 := by norm_num [Nat.shiftLeft_eq]
    have h3 : (5 : Nat) % 32 = 5 := by norm_num
    rw [h3, h2, lor_shiftLeft_eq_add 1 6 5 (by norm_num)]
    norm_num
  constructor
  · simp [wreg, wreg_frame, h64]
  · simp [wreg, wreg_frame, h69]

/-- C5 amended: for every address and data list (valid or not), `wreg`
succeeds — no `ProtocolError` exists — and the emitted frame has
`data.length + 2` bytes: command byte `0x40 | (addr mod 32)` (out-of-range
addresses silently alias into 0–31), length byte `len - 1` (hence `-1`
for empty data), then the data bytes unchanged. -/
theorem wreg_frame_spec (addr : Nat) (data : List Nat) :
    ∃ frame : List Int,
      wreg addr data = Except.ok frame ∧
      frame.length = data.length + 2 ∧
      frame.head? = some ((0x40 ||| (addr % 32) : Nat) : Int) ∧
      frame.drop 1 = ((data.length : Int) - 1) :: data.map (fun b => Int.ofNat b) := by
  refine ⟨wreg_frame addr data, rfl, ?_, rfl, rfl⟩
  show (((0x40 ||| (addr % 32) : Nat) : Int) ::
      ((data.length : Int) - 1) :: data.map (fun b => Int.ofNat b)).length = data.length + 2
  rw [List.length_cons, List.length_cons, List.length_map]

/-! ## Single-channel read cycle (ADC.py `read_voltage_single`) -/

/-- Observable bus-level actions of one `read_voltage_single` call. -/
inductive BusEvent where
  /-- the call `set_inpmux_single(ainp)`: INPMUX programmed to AINp vs AINCOM. -/
  | muxSelect (ain : Nat)
  /-- one `wait_drdy` call together with its boolean result. -/
  | drdyWait (ok : Bool)
  /-- one `read_raw_sample` call (RDATA). -/
  | sampleRead
deriving DecidableEq, BEq

/-- Errors `read_voltage_single` can raise. -/
inductive AdcErr where
  /-- Python `ValueError` (ainp must be 0..11) from `set_inpmux_single`. -/
  | valueErr
  /-- Python `TimeoutError` on a failed `wait_drdy`. -/
  | timeoutErr
deriving DecidableEq

/-- Device environment: the result of the i-th `wait_drdy` call and the
code returned by the i-th `read_raw_sample` call. -/
structure AdcEnv where
  drdy : Nat → Bool
  sample : Nat → Int

/-- ADC.py `read_voltage_single(ainp, vref, gain, settle_discard)`:
set the mux, `wait_drdy` (TimeoutError if false), read a first sample
(always, and always discarded), then — only if `settle_discard` —
`wait_drdy` again (TimeoutError if false), then read the authoritative
sample and convert it with `code_to_volts`.  Returns the result paired
with the trace of bus events that occurred before the call finished. -/
def read_voltage_single (env : AdcEnv) (ainp : Nat) (vref gain : ℚ)
    (settle_discard : Bool) : Except AdcErr ℚ × List BusEvent :=
  if ainp > 11 then (Except.error AdcErr.valueErr, [])
  else if !env.drdy 0 then
    (Except.error AdcErr.timeoutErr, [BusEvent.muxSelect ainp, BusEvent.drdyWait false])
  else if settle_discard then
    if !env.drdy 1 then
      (Except.error AdcErr.timeoutErr,
        [BusEvent.muxSelect ainp, BusEvent.drdyWait true, BusEvent.sampleRead,
         BusEvent.drdyWait false])
    else
      (Except.ok (code_to_volts (env.sample 1) vref gain),
        [BusEvent.muxSelect ainp, BusEvent.drdyWait true, BusEvent.sampleRead,
         BusEvent.drdyWait true, BusEvent.sampleRead])
  else
    (Except.ok (code_to_volts (env.sample 1) vref gain),
      [BusEvent.muxSelect ainp, BusEvent.drdyWait true, BusEvent.sampleRead,
       BusEvent.sampleRead])

/-- How many samples (RDATA commands) a trace contains. -/
def countReads (tr : List BusEvent) : Nat :=
  (tr.filter fun e => e == BusEvent.sampleRead).length

/-- How many `wait_drdy` calls a trace contains. -/
def countWaits (tr : List BusEvent) : Nat :=
  (tr.filter fun e => match e with | BusEvent.drdyWait _ => true | _ => false).length

/-- An always-ready device whose samples are all zero. -/
def envReady : AdcEnv where
  drdy := fun _ => true
  sample := fun _ => 0

/-- C4 counterexample: with `settle_discard = false` on an always-ready
device, `read_voltage_single` issues TWO sample reads after its single
`wait_drdy`, not the one read the claim states. -/
theorem read_single_no_discard_two_reads_cex :
    countReads (read_voltage_single envReady 3 1 1 false).2 = 2 ∧
    ¬ (countReads (read_voltage_single envReady 3 1 1 false).2 = 1) ∧
    countWaits (read_voltage_single envReady 3 1 1 false).2 = 1 := by
  constructor
  · rfl
  · constructor
    · decide
    · rfl

/-- C4 amended: for every valid `ainIndex`, the call selects the mux,
waits for DRDY (TimeoutError if not ready), always reads and discards a
first sample, then — only if `settleDiscard` — waits again (second
timeout also fatal) before the authoritative read; so with
`settleDiscard = false` two samples are read after one wait, and in
every case the returned voltage is `code_to_volts` of the second sample. -/
theorem read_single_trace_spec (env : AdcEnv) (ainp : Nat) (vref gain : ℚ)
    (h : ainp ≤ 11) :
    (env.drdy 0 = false → ∀ sd : Bool,
      read_voltage_single env ainp vref gain sd =
        (Except.error AdcErr.timeoutErr,
         [BusEvent.muxSelect ainp, BusEvent.drdyWait false])) ∧
    (env.drdy 0 = true →
      read_voltage_single env ainp vref gain false =
        (Except.ok (code_to_volts (env.sample 1) vref gain),
         [BusEvent.muxSelect ainp, BusEvent.drdyWait true, BusEvent.sampleRead,
          BusEvent.sampleRead])) ∧
    (env.drdy 0 = true → env.drdy 1 = false →
      read_voltage_single env ainp vref gain true =
        (Except.error AdcErr.timeoutErr,
         [BusEvent.muxSelect ainp, BusEvent.drdyWait true, BusEvent.sampleRead,
          BusEvent.drdyWait false])) ∧
    (env.drdy 0 = true → env.drdy 1 = true →
      read_voltage_single env ainp vref gain true =
        (Except.ok (code_to_volts (env.sample 1) vref gain),
         [BusEvent.muxSelect ainp, BusEvent.drdyWait true, BusEvent.sampleRead,
          BusEvent.drdyWait true, BusEvent.sampleRead])) := by
  have hna : ¬ ainp > 11 := by omega
  refine ⟨?_, ?_, ?_, ?_⟩
  · intro h0 sd
    simp [read_voltage_single, hna, h0]
  · intro h0
    simp [read_voltage_single, hna, h0]
  · intro h0 h1
    simp [read_voltage_single, hna, h0, h1]
  · intro h0 h1
    simp [read_voltage_single, hna, h0, h1]

/-- Closed witness for the amended trace description on an always-ready
device at channel 3. -/
theorem read_single_trace_spec_witness :
    (3 : Nat) ≤ 11 ∧
    (envReady.drdy 0 = true →
      read_voltage_single envReady 3 1 1 false =
        (Except.ok (code_to_volts (envReady.sample 1) 1 1),
         [BusEvent.muxSelect 3, BusEvent.drdyWait true, BusEvent.sampleRead,
          BusEvent.sampleRead])) :=
  ⟨by norm_num, (read_single_trace_spec envReady 3 1 1 (by norm_num)).2.1⟩

/-! ## Pressure transducer conversion (sensors.py) -/

/-- Calibration constants of `Pressure_Transducer` (sensors.py). -/
structure PTParams where
  V_max : ℚ
  V_min : ℚ
  V_span : ℚ
  P_min : ℚ
  P_max : ℚ
  offset : ℚ

/-- sensors.py `Pressure_Transducer._calculate_pressure`: clamp the
voltage to `[V_min, V_max]`, return 0 if `V_span == 0`, otherwise apply
the linear mapping and subtract the offset. -/
def calculate_pressure (p : PTParams) (sig_voltage : ℚ) : ℚ :=
  let v := max p.V_min (min sig_voltage p.V_max)
  if p.V_span = 0 then 0
  else (v - p.V_min) * ((p.P_max - p.P_min) / p.V_span) + p.P_min - p.offset

/-- The default pressure-transducer calibration
(`Vmin=0.5, Vmax=4.5, Vspan=4, Pmin=0, Pmax=100, offset=0`). -/
def ptDefault : PTParams where
  V_max := 9 / 2
  V_min := 1 / 2
  V_span := 4
  P_min := 0
  P_max := 100
  offset := 0

/-- C8: the pressure conversion clamps first and then applies
`(vClamped - Vmin) * ((Pmax - Pmin)/Vspan) + Pmin - offset`, returning 0
whenever `Vspan = 0`; with the default calibration, 2.5 V maps to 50 and
10 V clamps to 4.5 V and maps to 100. -/
theorem pressure_clamp_then_map :
    (∀ (p : PTParams) (v : ℚ),
      calculate_pressure p v =
        if p.V_span = 0 then 0
        else (max p.V_min (min v p.V_max) - p.V_min) * ((p.P_max - p.P_min) / p.V_span)
              + p.P_min - p.offset) ∧
    calculate_pressure ptDefault (5 / 2) = 50 ∧
    calculate_pressure ptDefault 10 = 100 := by
  refine ⟨fun p v => rfl, ?_, ?_⟩
  · have hmin : min (5 / 2 : ℚ) (9 / 2) = 5 / 2 := by norm_num
    have hmax : max (1 / 2 : ℚ) (5 / 2) = 5 / 2 := by norm_num
    simp only [calculate_pressure, ptDefault, hmin, hmax]
    norm_num
  · have hmin : min (10 : ℚ) (9 / 2) = 9 / 2 := by norm_num
    have hmax : max (1 / 2 : ℚ) (9 / 2) = 9 / 2 := by norm_num
    simp only [calculate_pressure, ptDefault, hmin, hmax]
    norm_num

/-! ## Acquisition manager (daq_manager.py, data_logger.py) -/

/-- One entry of `DAQManager.enabled_channels`: the tuple
`(adc_id, full_label, ch_idx)` built by `_build_enabled_channel_list`
(`onAdc1 = true` stands for the string literal adc1). -/
structure Chan where
  onAdc1 : Bool
  label : String
  chIdx : Nat
deriving DecidableEq

/-- The slice of an `ADS124S08` device the manager drives: whether
conversions are running (`start()` sets it, `stop()` clears it). -/
structure AdcDev where
  converting : Bool
deriving DecidableEq

/-- A dynamically-typed Python value, used to model the manager
`_latest_data` attribute (which Python does not constrain by type). -/
inductive PyVal where
  | pnum (q : ℚ)
  | pstr (s : String)
  | pnone
  | pdict (fs : List (String × PyVal))

/-- An open `DataLogger` session: filename, the header row the file was
created with, the data rows appended so far. -/
structure LogSession where
  filename : String
  header : List String
  rows : List (List (Option ℚ))

/-- The fixed 17-column `HEADER` that `DataLogger.__init__`
(data_logger.py) writes when the file is opened. -/
def DATA_LOGGER_FIXED_HEADER : List String :=
  ["timestamp", "LS1_SIG-", "LS1_SIG+", "RTD1_L2", "RT1_L1", "LS3_SIG-", "LS3_SIG+",
   "LS2_SIG-", "LS2_SIG+", "PT1_SIG", "PT1_SIG", "RTD2_L2", "RTD2_L1", "PT6_SIG",
   "PT5_SIG", "PT4_SIG", "PT3_SIG"]

/-- The `DAQManager` state: `_is_logging`, `_is_monitoring`, whether the
monitor thread was spawned, `_status_message`, `logger`,
`enabled_channels`, the two devices (`none` when construction failed),
and `_latest_data`. -/
structure DAQState where
  is_logging : Bool
  is_monitoring : Bool
  monitor_thread : Bool
  status_message : String
  logger : Option LogSession
  enabled_channels : List Chan
  adc1 : Option AdcDev
  adc2 : Option AdcDev
  latest_data : PyVal

/-- daq_manager.py `_build_enabled_channel_list`: the enabled entries of
the adc1 config (in order) with labels `ADC1_<label>`, then those of the
adc2 config with labels `ADC2_<label>`.  A config is the ordered list of
`label -> (ch_idx, enabled)` items of the Python dict. -/
def build_enabled_channel_list (cfg1 cfg2 : List (String × Nat × Bool)) : List Chan :=
  (cfg1.filter fun e => e.2.2).map (fun e => { onAdc1 := true, label := "ADC1_" ++ e.1, chIdx := e.2.1 })
    ++ (cfg2.filter fun e => e.2.2).map (fun e => { onAdc1 := false, label := "ADC2_" ++ e.1, chIdx := e.2.1 })

/-! ### Python dict operations (for `current_readings`) -/

/-- Assignment `d[k] = v` on an association-list model of a Python dict. -/
def dictSet (k : String) (v : Option ℚ) : List (String × Option ℚ) → List (String × Option ℚ)
  | [] => [(k, v)]
  | e :: rest => if e.1 = k then (k, v) :: rest else e :: dictSet k v rest

/-- Lookup `d[k]`: `some` value when present. -/
def dictGet (k : String) : List (String × Option ℚ) → Option (Option ℚ)
  | [] => none
  | e :: rest => if e.1 = k then some e.2 else dictGet k rest

/-- The `current_readings` dict after the per-channel loop of one poll
cycle: each enabled channel, in order, stores its read result (`none`
models Python `None`, recorded when `read_voltage_single` raised). -/
def read_all (read : Chan → Option ℚ) : List Chan → List (String × Option ℚ) → List (String × Option ℚ)
  | [], acc => acc
  | c :: rest, acc => read_all read rest (dictSet c.label (read c) acc)

/-- The CSV row of one cycle:
`[csv_timestamp] + [current_readings[label] for _, label, _ in channels]`. -/
def cycle_row (ts : ℚ) (chans : List Chan) (readings : List (String × Option ℚ)) :
    List (Option ℚ) :=
  some ts :: chans.map (fun c => ((dictGet c.label readings).getD none))

/-- Snapshot value published at the end of a cycle:
`{"timestamp": ts, "voltages": current_readings}`. -/
def snapshotVal (ts : ℚ) (readings : List (String × Option ℚ)) : PyVal :=
  PyVal.pdict [("timestamp", PyVal.pnum ts),
    ("voltages", PyVal.pdict (readings.map fun e =>
      (e.1, match e.2 with | some q => PyVal.pnum q | none => PyVal.pnone)))]

/-- One iteration of the `while self._is_monitoring` body of
`_monitor_loop`: read every enabled channel (recording `None` on a
per-channel failure and continuing), append one CSV row when logging,
then publish the new snapshot. -/
def poll_cycle (read : Chan → Option ℚ) (ts : ℚ) (s : DAQState) : DAQState :=
  let readings := read_all read s.enabled_channels []
  let s1 :=
    if s.is_logging then
      match s.logger with
      | some lg =>
          { s with logger := some { lg with rows := lg.rows ++ [cycle_row ts s.enabled_channels readings] } }
      | none => s
    else s
  { s1 with latest_data := snapshotVal ts readings }

/-! ### Control operations -/

/-- daq_manager.py `start_monitoring` state change: no-op when already
monitoring; when either device is `None` it only prints and returns;
otherwise it sets `_is_monitoring`, issues `start()` on both devices and
spawns the monitor thread. -/
def start_monitoring_state (s : DAQState) : DAQState :=
  if s.is_monitoring then s
  else if s.adc1.isNone || s.adc2.isNone then s
  else
    { s with is_monitoring := true,
             adc1 := s.adc1.map fun _ => { converting := true },
             adc2 := s.adc2.map fun _ => { converting := true },
             monitor_thread := true }

/-- The method `start_monitoring` as a fallible call: the source never raises, so
every branch returns `ok`. -/
def daq_start_monitoring (s : DAQState) : Except PyError DAQState :=
  Except.ok (start_monitoring_state s)

/-- daq_manager.py `start_logging`: raise when already logging or when
not monitoring (state untouched); otherwise construct a `DataLogger`
(which opens the file and writes the fixed `HEADER`), assign it to
`self.logger`, and then fail with `AttributeError` because `DataLogger`
has no `write_header` method — `_is_logging` is never set.  Returns the
exception outcome together with the state after the call. -/
def daq_start_logging (fname : String) (s : DAQState) :
    Except PyError String × DAQState :=
  if s.is_logging then (Except.error PyError.alreadyLogging, s)
  else if !s.is_monitoring then (Except.error PyError.notMonitoring, s)
  else
    let lg : LogSession := { filename := fname, header := DATA_LOGGER_FIXED_HEADER, rows := [] }
    (Except.error PyError.attrNoWriteHeader, { s with logger := some lg })

/-- What daq_manager.py `start_logging` was evidently intended to do (and
what the spec describes): open a session whose header is
`["timestamp_unix"] + [label for _, label, _ in enabled_channels]`,
write that header, set `_is_logging`, and return the filename. -/
def start_logging_intended (fname : String) (s : DAQState) :
    Except PyError String × DAQState :=
  if s.is_logging then (Except.error PyError.alreadyLogging, s)
  else if !s.is_monitoring then (Except.error PyError.notMonitoring, s)
  else
    let headers := "timestamp_unix" :: s.enabled_channels.map Chan.label
    let lg : LogSession := { filename := fname, header := headers, rows := [] }
    (Except.ok fname,
      { s with logger := some lg, is_logging := true,
               status_message := "Logging to " ++ fname })

/-- daq_manager.py `stop_logging`: no-op returning `none` when not
logging; otherwise close and drop the logger, clear `_is_logging`, set
the status message, and return the filename. -/
def stop_logging_state (s : DAQState) : Option String × DAQState :=
  if !s.is_logging then (none, s)
  else
    (s.logger.map LogSession.filename,
      { s with logger := none, is_logging := false,
               status_message := "Idle. Monitoring." })

/-- Conversions stopped on both devices (guarded by `if self.adc1:` /
`if self.adc2:` in the cleanup). -/
def stop_devices (s : DAQState) : DAQState :=
  { s with adc1 := s.adc1.map fun _ => { converting := false },
           adc2 := s.adc2.map fun _ => { converting := false } }

/-- The cleanup after the while loop of `_monitor_loop` exits: stop both
devices, then `stop_logging()` if logging was active. -/
def loop_cleanup (s : DAQState) : DAQState :=
  if (stop_devices s).is_logging then (stop_logging_state (stop_devices s)).2
  else stop_devices s

/-- The while loop of `_monitor_loop`, driven by a finite schedule of
cycles (each cycle supplies the read results and the timestamp); the
loop body runs only while `_is_monitoring` holds. -/
def run_cycles (inputs : List ((Chan → Option ℚ) × ℚ)) (s : DAQState) : DAQState :=
  match inputs with
  | [] => s
  | (read, ts) :: rest =>
      if s.is_monitoring then run_cycles rest (poll_cycle read ts s) else s

/-- daq_manager.py `_monitor_loop`: when the pre-built enabled-channel
list is empty, clear `_is_monitoring` and return at once — skipping the
cleanup entirely; otherwise run cycles and then the cleanup. -/
def monitor_loop (inputs : List ((Chan → Option ℚ) × ℚ)) (s : DAQState) : DAQState :=
  if s.enabled_channels.isEmpty then { s with is_monitoring := false }
  else loop_cleanup (run_cycles inputs s)

/-- daq_manager.py `set_channel_config`: raise (state untouched) while
monitoring; otherwise replace the config and rebuild the channel list. -/
def set_channel_config_state (cfg1 cfg2 : List (String × Nat × Bool)) (s : DAQState) : DAQState :=
  if s.is_monitoring then s
  else { s with enabled_channels := build_enabled_channel_list cfg1 cfg2,
                status_message := "Idle. Channel config updated." }

/-- daq_manager.py `get_latest_data`: return `_latest_data`. -/
def get_latest_data (s : DAQState) : PyVal :=
  s.latest_data

/-- daq_manager.py `__init__` before hardware start-up: `_latest_data`
is set to `{"timestamp": t0, "voltages": {}}`; the devices exist exactly
when hardware construction succeeded (`hwOK`). -/
def initBase (cfg1 cfg2 : List (String × Nat × Bool)) (t0 : ℚ) (hwOK : Bool) : DAQState :=
  { is_logging := false
    is_monitoring := false
    monitor_thread := false
    status_message := if hwOK then "Idle. ADCs ready." else "CRITICAL: device start-up failed."
    logger := none
    enabled_channels := build_enabled_channel_list cfg1 cfg2
    adc1 := if hwOK then some { converting := false } else none
    adc2 := if hwOK then some { converting := false } else none
    latest_data := PyVal.pdict [("timestamp", PyVal.pnum t0), ("voltages", PyVal.pdict [])] }

/-- daq_manager.py `__init__`: on hardware success the constructor also
auto-calls `start_monitoring()`. -/
def initDAQ (cfg1 cfg2 : List (String × Nat × Bool)) (t0 : ℚ) (hwOK : Bool) : DAQState :=
  if hwOK then start_monitoring_state (initBase cfg1 cfg2 t0 true)
  else initBase cfg1 cfg2 t0 false

/-- The manager operations a caller (or the monitor thread) can perform
after construction. -/
inductive Op where
  | opStartMon
  | opCycle (read : Chan → Option ℚ) (ts : ℚ)
  | opStartLog (fname : String)
  | opStopLog
  | opLoopRun (inputs : List ((Chan → Option ℚ) × ℚ))
  | opSetConfig (cfg1 cfg2 : List (String × Nat × Bool))

/-- The state transition of each operation (cycles only run while the
monitor flag is set, as in `_monitor_loop`). -/
def applyOp (s : DAQState) : Op → DAQState
  | Op.opStartMon => start_monitoring_state s
  | Op.opCycle read ts => if s.is_monitoring then poll_cycle read ts s else s
  | Op.opStartLog fname => (daq_start_logging fname s).2
  | Op.opStopLog => (stop_logging_state s).2
  | Op.opLoopRun inputs => monitor_loop inputs s
  | Op.opSetConfig cfg1 cfg2 => set_channel_config_state cfg1 cfg2 s

/-- A voltages-dict entry is a number or Python `None`. -/
def isVoltEntry (e : String × PyVal) : Prop :=
  (∃ q : ℚ, e.2 = PyVal.pnum q) ∨ e.2 = PyVal.pnone

/-- A well-formed snapshot: a dict with a numeric `"timestamp"` and a
`"voltages"` dict of numeric-or-`None` entries. -/
def isSnapshot (v : PyVal) : Prop :=
  ∃ (t : ℚ) (fs : List (String × PyVal)),
    v = PyVal.pdict [("timestamp", PyVal.pnum t), ("voltages", PyVal.pdict fs)] ∧
    ∀ e ∈ fs, isVoltEntry e

/-! ### Dict / cycle lemmas -/

lemma dictGet_dictSet_self (k : String) (v : Option ℚ) (d : List (String × Option ℚ)) :
    dictGet k (dictSet k v d) = some v := by
  induction d with
  | nil => simp [dictSet, dictGet]
  | cons e rest ih =>
      by_cases h : e.1 = k
      · simp [dictSet, dictGet, h]
      · simp [dictSet, dictGet, h, ih]

lemma dictGet_dictSet_ne (k j : String) (v : Option ℚ) (d : List (String × Option ℚ))
    (h : k ≠ j) : dictGet k (dictSet j v d) = dictGet k d := by
  have hjk : ¬ (j = k) := fun hh => h hh.symm
  induction d with
  | nil => simp [dictSet, dictGet, hjk]
  | cons e rest ih =>
      by_cases hej : e.1 = j
      · have hek : ¬ (e.1 = k) := by rw [hej]; exact hjk
        simp [dictSet, dictGet, hej, hjk, hek]
      · by_cases hek : e.1 = k
        · simp [dictSet, dictGet, hej, hek, h]
        · simp [dictSet, dictGet, hej, hek, ih]

lemma read_all_get_of_not_mem (read : Chan → Option ℚ) (chans : List Chan)
    (acc : List (String × Option ℚ)) (k : String) (h : k ∉ chans.map Chan.label) :
    dictGet k (read_all read chans acc) = dictGet k acc := by
  induction chans generalizing acc with
  | nil => rfl
  | cons c rest ih =>
      have hk : k ≠ c.label := by
        intro hh
        exact h (by simp [hh])
      have hrest : k ∉ rest.map Chan.label := by
        intro hh
        exact h (by simp [hh])
      show dictGet k (read_all read rest (dictSet c.label (read c) acc)) = dictGet k acc
      rw [ih _ hrest, dictGet_dictSet_ne _ _ _ _ hk]

lemma read_all_get (read : Chan → Option ℚ) (chans : List Chan) (c : Chan)
    (acc : List (String × Option ℚ)) (hc : c ∈ chans)
    (hnd : (chans.map Chan.label).Nodup) :
    dictGet c.label (read_all read chans acc) = some (read c) := by
  induction chans generalizing acc with
  | nil => cases hc
  | cons c0 rest ih =>
      have hmapped : (c0.label :: rest.map Chan.label).Nodup := by
        simpa using hnd
      have hnd0 : c0.label ∉ rest.map Chan.label := (List.nodup_cons.mp hmapped).1
      have hndr : (rest.map Chan.label).Nodup := (List.nodup_cons.mp hmapped).2
      rcases List.mem_cons.mp hc with heq | hmem
      · subst heq
        show dictGet c.label (read_all read rest (dictSet c.label (read c) acc)) = some (read c)
        rw [read_all_get_of_not_mem read rest _ c.label hnd0, dictGet_dictSet_self]
      · exact ih (dictSet c0.label (read c0) acc) hmem hndr

lemma cycle_row_eq (read : Chan → Option ℚ) (ts : ℚ) (chans : List Chan)
    (hnd : (chans.map Chan.label).Nodup) :
    cycle_row ts chans (read_all read chans []) = some ts :: chans.map read := by
  unfold cycle_row
  congr 1
  apply List.map_congr_left
  intro c hc
  rw [read_all_get read chans c [] hc hnd]
  rfl

/-! ### Claim C7 -/

/-- C7: in a poll cycle every enabled channel gets an entry in
`current_readings` (`none` marking a failed read, the cycle never
aborting), and while logging the appended row is the timestamp followed
by the per-channel values in exactly the enabled-channel (= header)
order, hence always `n + 1` cells for `n` enabled channels. -/
theorem poll_cycle_row_aligned (read : Chan → Option ℚ) (ts : ℚ) (s : DAQState)
    (lg : LogSession) (hnd : (s.enabled_channels.map Chan.label).Nodup)
    (hlog : s.is_logging = true) (hlg : s.logger = some lg) :
    (∀ c ∈ s.enabled_channels,
      dictGet c.label (read_all read s.enabled_channels []) = some (read c)) ∧
    (poll_cycle read ts s).logger =
      some { lg with rows := lg.rows ++ [some ts :: s.enabled_channels.map read] } ∧
    (some ts :: s.enabled_channels.map read).length = s.enabled_channels.length + 1 := by
  refine ⟨fun c hc => read_all_get read s.enabled_channels c [] hc hnd, ?_, by simp⟩
  unfold poll_cycle
  simp only [hlog, hlg, if_true]
  rw [cycle_row_eq read ts s.enabled_channels hnd]

/-- Three enabled channels used in the C7 witness. -/
def chW1 : Chan := { onAdc1 := true, label := "ADC1_A", chIdx := 0 }

/-- Second witness channel. -/
def chW2 : Chan := { onAdc1 := true, label := "ADC1_B", chIdx := 1 }

/-- Third witness channel. -/
def chW3 : Chan := { onAdc1 := false, label := "ADC2_C", chIdx := 2 }

/-- A read oracle whose middle channel fails (returns Python `None`). -/
def readW : Chan → Option ℚ :=
  fun c => if c.label = "ADC1_B" then none else some 1

/-- A one-session logger with an empty file for the C7 witness. -/
def lgW : LogSession := { filename := "DATA-w.csv", header := [], rows := [] }

/-- A logging manager state with three enabled channels for the C7 witness. -/
def sLogW : DAQState :=
  { is_logging := true, is_monitoring := true, monitor_thread := true,
    status_message := "", logger := some lgW,
    enabled_channels := [chW1, chW2, chW3],
    adc1 := some { converting := true }, adc2 := some { converting := true },
    latest_data := PyVal.pdict [("timestamp", PyVal.pnum 0), ("voltages", PyVal.pdict [])] }

/-- Closed witness for C7: with three enabled channels and the middle
read failing, the appended row still has three value cells, the failed
one `none`, in header order. -/
theorem poll_cycle_row_aligned_witness :
    (sLogW.enabled_channels.map Chan.label).Nodup ∧
    ((∀ c ∈ sLogW.enabled_channels,
      dictGet c.label (read_all readW sLogW.enabled_channels []) = some (readW c)) ∧
    (poll_cycle readW 7 sLogW).logger =
      some { lgW with rows := lgW.rows ++ [some 7 :: sLogW.enabled_channels.map readW] } ∧
    (some 7 :: sLogW.enabled_channels.map readW).length = sLogW.enabled_channels.length + 1) :=
  ⟨by decide, poll_cycle_row_aligned readW 7 sLogW lgW (by decide) rfl rfl⟩

/-! ### Claim C6 -/

/-- C6 counterexample: with both devices failed (construction raised and
`self.adc1 = self.adc2 = None`), `start_monitoring()` does NOT fail with
`NotInitializedError`: it prints a message and returns normally, the
state unchanged. -/
theorem start_monitoring_no_error_cex :
    daq_start_monitoring (initBase [("AIN0", 0, true)] [] 0 false) =
      Except.ok (initBase [("AIN0", 0, true)] [] 0 false) ∧
    daq_start_monitoring (initBase [("AIN0", 0, true)] [] 0 false) ≠
      Except.error PyError.notInited := by
  constructor
  · rfl
  · simp [daq_start_monitoring]

/-- C6 amended: `start_monitoring()` is a no-op when already Monitoring;
when either device is uninitialized it returns normally with the state
unchanged (only printing a message — no error is raised); otherwise it
sets the monitoring flag, starts conversions on both devices, and spawns
the poll-loop thread. -/
theorem start_monitoring_spec (s : DAQState) :
    (s.is_monitoring = true → daq_start_monitoring s = Except.ok s) ∧
    (s.is_monitoring = false → (s.adc1.isNone || s.adc2.isNone) = true →
      daq_start_monitoring s = Except.ok s) ∧
    (∀ d1 d2 : AdcDev, s.is_monitoring = false → s.adc1 = some d1 → s.adc2 = some d2 →
      daq_start_monitoring s = Except.ok
        { s with is_monitoring := true,
                 adc1 := some { converting := true },
                 adc2 := some { converting := true },
                 monitor_thread := true }) := by
  refine ⟨?_, ?_, ?_⟩
  · intro h
    simp [daq_start_monitoring, start_monitoring_state, h]
  · intro h hn
    simp [daq_start_monitoring, start_monitoring_state, h, hn]
  · intro d1 d2 h h1 h2
    have hn : (s.adc1.isNone || s.adc2.isNone) = false := by
      simp [h1, h2]
    simp [daq_start_monitoring, start_monitoring_state, h, hn, h1, h2]

/-- Closed witness for the amended `start_monitoring` behavior: starting
from a freshly constructed healthy manager that is not yet monitoring. -/
theorem start_monitoring_spec_witness :
    (initBase [("AIN0", 0, true)] [] 0 true).is_monitoring = false ∧
    (initBase [("AIN0", 0, true)] [] 0 true).adc1 = some { converting := false } ∧
    daq_start_monitoring (initBase [("AIN0", 0, true)] [] 0 true) = Except.ok
      { initBase [("AIN0", 0, true)] [] 0 true with
          is_monitoring := true,
          adc1 := some { converting := true },
          adc2 := some { converting := true },
          monitor_thread := true } :=
  ⟨rfl, rfl,
    (start_monitoring_spec (initBase [("AIN0", 0, true)] [] 0 true)).2.2
      { converting := false } { converting := false } rfl rfl rfl⟩

/-! ### Claim C1 -/

/-- A monitoring, non-logging manager state (the `start_logging`
success-path precondition). -/
def sMonW : DAQState :=
  { is_logging := false, is_monitoring := true, monitor_thread := true,
    status_message := "", logger := none,
    enabled_channels := [chW1, chW2],
    adc1 := some { converting := true }, adc2 := some { converting := true },
    latest_data := PyVal.pdict [("timestamp", PyVal.pnum 0), ("voltages", PyVal.pdict [])] }

/-- C1 evaluated at the failing input: with monitoring active and no
session, `start_logging()` raises `AttributeError` (DataLogger has no
`write_header`), leaving `self.logger` set to a session whose header is
the fixed 17-column `HEADER` — not the enabled-channel list — and
`_is_logging` still false; the two precondition errors, by contrast,
behave as the claim states, and the intended success path (modelled by
`start_logging_intended`) would have returned the filename. -/
theorem start_logging_write_header_bug :
    (daq_start_logging "DATA-x.csv" sMonW).1 = Except.error PyError.attrNoWriteHeader ∧
    (daq_start_logging "DATA-x.csv" sMonW).2.is_logging = false ∧
    (daq_start_logging "DATA-x.csv" sMonW).2.logger =
      some { filename := "DATA-x.csv", header := DATA_LOGGER_FIXED_HEADER, rows := [] } ∧
    DATA_LOGGER_FIXED_HEADER ≠ "timestamp_unix" :: sMonW.enabled_channels.map Chan.label ∧
    (daq_start_logging "DATA-x.csv" { sMonW with is_logging := true }).1 =
      Except.error PyError.alreadyLogging ∧
    (daq_start_logging "DATA-x.csv" { sMonW with is_monitoring := false }).1 =
      Except.error PyError.notMonitoring ∧
    (start_logging_intended "DATA-x.csv" sMonW).1 = Except.ok "DATA-x.csv" ∧
    ((start_logging_intended "DATA-x.csv" sMonW).2.logger.map LogSession.header) =
      some ("timestamp_unix" :: sMonW.enabled_channels.map Chan.label) := by
  refine ⟨rfl, rfl, rfl, by decide, rfl, rfl, rfl, rfl⟩

/-! ### Claim C9 -/

/-- C9: when the enabled-channel list is empty at thread start, the
monitor loop clears the monitoring flag and returns at once, skipping
the cleanup: the devices are not stopped and the logging session is not
torn down. -/
theorem monitor_loop_empty_skips_cleanup (inputs : List ((Chan → Option ℚ) × ℚ))
    (s : DAQState) (h : s.enabled_channels = []) :
    monitor_loop inputs s = { s with is_monitoring := false } ∧
    (monitor_loop inputs s).is_monitoring = false ∧
    (monitor_loop inputs s).adc1 = s.adc1 ∧
    (monitor_loop inputs s).adc2 = s.adc2 ∧
    (monitor_loop inputs s).logger = s.logger ∧
    (monitor_loop inputs s).is_logging = s.is_logging := by
  have he : s.enabled_channels.isEmpty = true := by
    rw [h]
    rfl
  have hm : monitor_loop inputs s = { s with is_monitoring := false } := by
    unfold monitor_loop
    rw [he]
    rfl
  exact ⟨hm, by rw [hm], by rw [hm], by rw [hm], by rw [hm], by rw [hm]⟩

/-- A monitoring state with converting devices but no enabled channels. -/
def sEmptyW : DAQState :=
  { is_logging := false, is_monitoring := true, monitor_thread := true,
    status_message := "", logger := none,
    enabled_channels := [],
    adc1 := some { converting := true }, adc2 := some { converting := true },
    latest_data := PyVal.pdict [("timestamp", PyVal.pnum 0), ("voltages", PyVal.pdict [])] }

/-- Closed witness for C9: after the early exit the manager reports
not-monitoring while both devices still have `converting = true`. -/
theorem monitor_loop_empty_skips_cleanup_witness :
    sEmptyW.enabled_channels = [] ∧
    (monitor_loop [] sEmptyW = { sEmptyW with is_monitoring := false } ∧
     (monitor_loop [] sEmptyW).is_monitoring = false ∧
     (monitor_loop [] sEmptyW).adc1 = sEmptyW.adc1 ∧
     (monitor_loop [] sEmptyW).adc2 = sEmptyW.adc2 ∧
     (monitor_loop [] sEmptyW).logger = sEmptyW.logger ∧
     (monitor_loop [] sEmptyW).is_logging = sEmptyW.is_logging) :=
  ⟨rfl, monitor_loop_empty_skips_cleanup [] sEmptyW rfl⟩

/-! ### Claim C10 -/

lemma isSnapshot_snapshotVal (ts : ℚ) (readings : List (String × Option ℚ)) :
    isSnapshot (snapshotVal ts readings) := by
  unfold snapshotVal
  refine ⟨ts, _, rfl, ?_⟩
  intro e he
  rcases List.mem_map.mp he with ⟨a, _, rfl⟩
  cases h2 : a.2 with
  | none => exact Or.inr rfl
  | some q => exact Or.inl ⟨q, rfl⟩

lemma start_monitoring_latest (s : DAQState) :
    (start_monitoring_state s).latest_data = s.latest_data := by
  unfold start_monitoring_state
  split
  · rfl
  · split
    · rfl
    · rfl

lemma start_logging_latest (fname : String) (s : DAQState) :
    (daq_start_logging fname s).2.latest_data = s.latest_data := by
  unfold daq_start_logging
  split
  · rfl
  · split
    · rfl
    · rfl

lemma stop_logging_latest (s : DAQState) :
    (stop_logging_state s).2.latest_data = s.latest_data := by
  unfold stop_logging_state
  split
  · rfl
  · rfl

lemma poll_cycle_latest (read : Chan → Option ℚ) (ts : ℚ) (s : DAQState) :
    (poll_cycle read ts s).latest_data = snapshotVal ts (read_all read s.enabled_channels []) := by
  unfold poll_cycle
  split
  · split
    · rfl
    · rfl
  · rfl

lemma run_cycles_snapshot (inputs : List ((Chan → Option ℚ) × ℚ)) :
    ∀ s : DAQState, isSnapshot s.latest_data → isSnapshot (run_cycles inputs s).latest_data := by
  induction inputs with
  | nil => intro s h; exact h
  | cons p rest ih =>
      intro s h
      show isSnapshot (if s.is_monitoring then run_cycles rest (poll_cycle p.1 p.2 s) else s).latest_data
      by_cases hm : s.is_monitoring
      · rw [if_pos hm]
        apply ih
        rw [poll_cycle_latest]
        exact isSnapshot_snapshotVal _ _
      · rw [if_neg hm]
        exact h

lemma loop_cleanup_latest (s : DAQState) :
    (loop_cleanup s).latest_data = s.latest_data := by
  unfold loop_cleanup
  split
  · rw [stop_logging_latest]
    rfl
  · rfl

lemma applyOp_snapshot (s : DAQState) (op : Op) (h : isSnapshot s.latest_data) :
    isSnapshot (applyOp s op).latest_data := by
  cases op with
  | opStartMon =>
      show isSnapshot (start_monitoring_state s).latest_data
      rw [start_monitoring_latest]
      exact h
  | opCycle read ts =>
      show isSnapshot (if s.is_monitoring then poll_cycle read ts s else s).latest_data
      by_cases hm : s.is_monitoring
      · rw [if_pos hm, poll_cycle_latest]
        exact isSnapshot_snapshotVal _ _
      · rw [if_neg hm]
        exact h
  | opStartLog fname =>
      show isSnapshot (daq_start_logging fname s).2.latest_data
      rw [start_logging_latest]
      exact h
  | opStopLog =>
      show isSnapshot (stop_logging_state s).2.latest_data
      rw [stop_logging_latest]
      exact h
  | opLoopRun inputs =>
      show isSnapshot (monitor_loop inputs s).latest_data
      unfold monitor_loop
      split
      · exact h
      · rw [loop_cleanup_latest]
        exact run_cycles_snapshot inputs s h
  | opSetConfig cfg1 cfg2 =>
      show isSnapshot (set_channel_config_state cfg1 cfg2 s).latest_data
      unfold set_channel_config_state
      split
      · exact h
      · exact h

lemma foldl_snapshot (ops : List Op) :
    ∀ s : DAQState, isSnapshot s.latest_data → isSnapshot (ops.foldl applyOp s).latest_data := by
  induction ops with
  | nil => intro s h; exact h
  | cons op rest ih =>
      intro s h
      exact ih (applyOp s op) (applyOp_snapshot s op h)

/-- C10: from construction onward the latest-snapshot value is always a
dict with a numeric `"timestamp"` and a `"voltages"` dict of
numeric-or-`None` entries — every operation preserves this — so
`get_latest_data()` always returns such a snapshot; right after
construction (before any poll cycle) the voltages dict is empty. -/
theorem latest_snapshot_invariant (cfg1 cfg2 : List (String × Nat × Bool)) (t0 : ℚ)
    (hwOK : Bool) (ops : List Op) :
    isSnapshot (get_latest_data (ops.foldl applyOp (initDAQ cfg1 cfg2 t0 hwOK))) ∧
    get_latest_data (initDAQ cfg1 cfg2 t0 hwOK) =
      PyVal.pdict [("timestamp", PyVal.pnum t0), ("voltages", PyVal.pdict [])] := by
  have hinit : (initDAQ cfg1 cfg2 t0 hwOK).latest_data =
      PyVal.pdict [("timestamp", PyVal.pnum t0), ("voltages", PyVal.pdict [])] := by
    unfold initDAQ
    split
    · rw [start_monitoring_latest]
      rfl
    · rfl
  constructor
  · apply foldl_snapshot
    rw [hinit]
    exact ⟨t0, [], rfl, by intro e he; cases he⟩
  · exact hinit

end DAQ
